import Mathlib

/-!
Shallow embedding of the core of the AIStudioToAPI proxy:
the OpenAI/Gemini format converter (src/handlers/formatConverter.js) and the
connection registry (src/utils/connectionRegistry.js), together with theorems
settling the stated properties of the specification.

JavaScript conventions used throughout the embedding:
an absent (undefined) object field is modelled as an Option that is none;
JS string truthiness (empty string is falsy) is modelled by optStrTruthy;
JSON numbers holding token counts are modelled as Nat;
nondeterministic inputs (Date.now, Math.random, network fetches) are passed
in as explicit parameters.
-/

namespace AIStudioToAPI

/-- JavaScript truthiness of an optional string field: an absent field and the
empty string are falsy, every other string is truthy. -/
def optStrTruthy : Option String → Bool
  | some s => s != ""
  | none => false

/-- Rendering of an optional string in a JS template literal: an undefined
value prints as the text undefined. -/
def jsDisplay : Option String → String
  | some s => s
  | none => "undefined"

/-- One entry of usageMetadata.candidatesTokensDetails. -/
structure TokensDetail where
  modality : Option String := none
  tokenCount : Option Nat := none
deriving Repr, DecidableEq

/-- The usageMetadata object of a Gemini response. -/
structure UsageMetadata where
  promptTokenCount : Option Nat := none
  toolUsePromptTokenCount : Option Nat := none
  candidatesTokenCount : Option Nat := none
  thoughtsTokenCount : Option Nat := none
  totalTokenCount : Option Nat := none
  candidatesTokensDetails : Option (List TokensDetail) := none
deriving Repr, DecidableEq

/-- The inlineData object of a Gemini content part. -/
structure InlineData where
  mimeType : String
  data : String
deriving Repr, DecidableEq

/-- One content part of a Gemini candidate. -/
structure Part where
  thought : Bool := false
  text : Option String := none
  inlineData : Option InlineData := none
deriving Repr, DecidableEq

/-- The content object of a Gemini candidate; parts is none when the field is
missing or not an array. -/
structure CandidateContent where
  parts : Option (List Part) := none
deriving Repr, DecidableEq

/-- One candidate of a Gemini response. -/
structure Candidate where
  content : Option CandidateContent := none
  finishReason : Option String := none
deriving Repr, DecidableEq

/-- The promptFeedback object of a Gemini response. -/
structure PromptFeedback where
  blockReason : Option String := none
deriving Repr, DecidableEq

/-- A parsed Gemini response or streaming fragment. -/
structure GoogleResponse where
  candidates : List Candidate := []
  usageMetadata : Option UsageMetadata := none
  promptFeedback : Option PromptFeedback := none
deriving Repr, DecidableEq

/-- The list of parts the converter loops over: present only when
candidate.content exists and content.parts is an array. -/
def Candidate.partsList (c : Candidate) : List Part :=
  match c.content with
  | some cc => cc.parts.getD []
  | none => []

/-- The completion token detail breakdown of the translated usage record. -/
structure CompletionTokensDetails where
  image_tokens : Nat
  output_text_tokens : Nat
  reasoning_tokens : Nat
deriving Repr, DecidableEq

/-- The prompt token detail breakdown of the translated usage record. -/
structure PromptTokensDetails where
  text_tokens : Nat
  tool_tokens : Nat
deriving Repr, DecidableEq

/-- The OpenAI-dialect usage record produced by the converter.  The detail
sub-objects are optional because the empty-response branch of the non-stream
converter builds a usage object without them. -/
structure OpenAIUsage where
  completion_tokens : Nat
  completion_tokens_details : Option CompletionTokensDetails := none
  prompt_tokens : Nat
  prompt_tokens_details : Option PromptTokensDetails := none
  total_tokens : Nat
deriving Repr, DecidableEq

/-- Running sum of tokenCount over the IMAGE-modality detail entries,
as accumulated by the loop in FormatConverter._parseUsage. -/
def imageTokensSum : List TokensDetail → Nat
  | [] => 0
  | d :: ds => (if d.modality == some "IMAGE" then d.tokenCount.getD 0 else 0) + imageTokensSum ds

/-- FormatConverter._parseUsage: translate Gemini usageMetadata into the
OpenAI-dialect usage record. -/
def parseUsage (googleResponse : GoogleResponse) : OpenAIUsage :=
  let usage := googleResponse.usageMetadata.getD {}
  let inputTokens := usage.promptTokenCount.getD 0
  let toolPromptTokens := usage.toolUsePromptTokenCount.getD 0
  let completionTextTokens := usage.candidatesTokenCount.getD 0
  let reasoningTokens := usage.thoughtsTokenCount.getD 0
  let completionImageTokens :=
    match usage.candidatesTokensDetails with
    | some ds => imageTokensSum ds
    | none => 0
  { completion_tokens := completionTextTokens + reasoningTokens
    completion_tokens_details := some
      { image_tokens := completionImageTokens
        output_text_tokens := completionTextTokens
        reasoning_tokens := reasoningTokens }
    prompt_tokens := inputTokens + toolPromptTokens
    prompt_tokens_details := some { text_tokens := inputTokens, tool_tokens := toolPromptTokens }
    total_tokens := usage.totalTokenCount.getD 0 }

/-- Markdown image reference with embedded base64 data, as built by the
converter for inlineData parts. -/
def imageMarkdown (img : InlineData) : String :=
  "![Generated Image](data:" ++ img.mimeType ++ ";base64," ++ img.data ++ ")"

/-- The message object of a non-streaming OpenAI-dialect choice. -/
structure OpenAIMessage where
  content : String
  role : String
  reasoning_content : Option String := none
deriving Repr, DecidableEq

/-- One choice of a non-streaming OpenAI-dialect completion. -/
structure NonStreamChoice where
  finish_reason : String
  index : Nat
  message : OpenAIMessage
deriving Repr, DecidableEq

/-- A non-streaming OpenAI-dialect chat completion. -/
structure ChatCompletion where
  choices : List NonStreamChoice
  created : Nat
  id : String
  model : String
  object : String
  usage : OpenAIUsage
deriving Repr, DecidableEq

/-- The content / reasoning_content accumulation loop of the non-stream
converter: thought parts append to reasoning, truthy text parts append to
content, inlineData parts append a markdown image to content. -/
def accumulateParts (parts : List Part) : String × String :=
  parts.foldl
    (fun acc p =>
      if p.thought then (acc.1, acc.2 ++ p.text.getD "")
      else if optStrTruthy p.text then (acc.1 ++ p.text.getD "", acc.2)
      else
        match p.inlineData with
        | some img => (acc.1 ++ imageMarkdown img, acc.2)
        | none => acc)
    ("", "")

/-- FormatConverter.convertGoogleToOpenAINonStream.  The wall clock reading
(Date.now) and the random request id are passed in as the parameters
created and requestId. -/
def convertGoogleToOpenAINonStream (googleResponse : GoogleResponse) (modelName : String)
    (created : Nat) (requestId : String) : ChatCompletion :=
  match googleResponse.candidates.head? with
  | none =>
    { choices := [{ finish_reason := "stop", index := 0,
                    message := { content := "", role := "assistant" } }]
      created := created
      id := "chatcmpl-" ++ requestId
      model := modelName
      object := "chat.completion"
      usage := { completion_tokens := 0, prompt_tokens := 0, total_tokens := 0 } }
  | some candidate =>
    let acc := accumulateParts candidate.partsList
    let message : OpenAIMessage :=
      { content := acc.1
        role := "assistant"
        reasoning_content := if acc.2 != "" then some acc.2 else none }
    { choices := [{ finish_reason := if optStrTruthy candidate.finishReason then
                      candidate.finishReason.getD "stop" else "stop"
                    index := 0
                    message := message }]
      created := created
      id := "chatcmpl-" ++ requestId
      model := modelName
      object := "chat.completion"
      usage := parseUsage googleResponse }

/-- The per-response Translation State object threaded by the caller through
all streaming translation calls (streamState in the source). -/
structure StreamState where
  id : Option String := none
  created : Option Nat := none
  roleSent : Bool := false
  inThought : Bool := false
deriving Repr, DecidableEq

/-- The converter-level mutable state: the cached usage record awaiting the
terminal chunk (this.streamUsage in the source). -/
structure ConverterState where
  streamUsage : Option OpenAIUsage := none
deriving Repr, DecidableEq

/-- The delta object of an OpenAI-dialect streaming choice. -/
structure Delta where
  content : Option String := none
  reasoning_content : Option String := none
  role : Option String := none
deriving Repr, DecidableEq

/-- One choice of an OpenAI-dialect streaming chunk. -/
structure StreamChoice where
  delta : Delta
  finish_reason : Option String
  index : Nat
deriving Repr, DecidableEq

/-- An OpenAI-dialect streaming chunk.  The usage field is doubly optional to
mirror the serialized JSON exactly: none means the chunk object carries no
usage key at all, some none means the key is present with value null, and
some (some u) means the key is present with a usage record. -/
structure StreamChunk where
  choices : List StreamChoice
  created : Nat
  id : String
  model : String
  object : String
  usage : Option (Option OpenAIUsage) := none
deriving Repr, DecidableEq

/-- The delta built for one Gemini part by the streaming loop, without the
role field (which is attached separately): none when the part carries no
content.  A thought part needs truthy text; a non-thought part contributes
its truthy text, else its inlineData as a markdown image. -/
def partRawDelta (p : Part) : Option Delta :=
  if p.thought then
    if optStrTruthy p.text then some { reasoning_content := p.text } else none
  else if optStrTruthy p.text then some { content := p.text }
  else
    match p.inlineData with
    | some img => some { content := some (imageMarkdown img) }
    | none => none

/-- A content-bearing streaming chunk wrapping one delta. -/
def mkContentChunk (streamId : String) (created : Nat) (modelName : String)
    (delta : Delta) : StreamChunk :=
  { choices := [{ delta := delta, finish_reason := none, index := 0 }]
    created := created
    id := streamId
    model := modelName
    object := "chat.completion.chunk"
    usage := none }

/-- The loop over candidate.content.parts in the streaming translator: one
chunk per content-bearing part, role attached to the first content-bearing
chunk of the response, inThought set when a thought part is emitted. -/
def emitParts (streamId : String) (created : Nat) (modelName : String) :
    StreamState → List Part → StreamState × List StreamChunk
  | st, [] => (st, [])
  | st, p :: ps =>
    match partRawDelta p with
    | none => emitParts streamId created modelName st ps
    | some d =>
      let st1 := if p.thought then { st with inThought := true } else st
      let pair :=
        if !st1.roleSent then
          ({ d with role := some "assistant" }, { st1 with roleSent := true })
        else (d, st1)
      let rest := emitParts streamId created modelName pair.2 ps
      (rest.1, mkContentChunk streamId created modelName pair.1 :: rest.2)

/-- On the first call of a logical response the Translation State receives its
response id and creation timestamp (freshId abstracts the generated random id,
now the Date.now reading). -/
def assignStreamIdentity (st : StreamState) (freshId : String) (now : Nat) : StreamState :=
  if st.id.isNone then { st with id := some ("chatcmpl-" ++ freshId), created := some now }
  else st

/-- The result of translating one streaming fragment: the updated converter
state, the updated Translation State, and the chunks to send (none mirrors
the null return of the source, meaning nothing is written out). -/
structure TranslateResult where
  conv : ConverterState
  state : StreamState
  output : Option (List StreamChunk)
deriving Repr, DecidableEq

/-- FormatConverter.translateGoogleToOpenAIStream on one parsed fragment
(after the SSE framing layer: empty chunks, the data: prefix, the raw DONE
marker and JSON parse failures are handled before this point).  Callers in
the core always supply a Translation State object, so the embedding models
the streamState parameter as always present. -/
def translateGoogleToOpenAIStream (conv : ConverterState) (googleResponse : GoogleResponse)
    (modelName : String) (st0 : StreamState) (freshId : String) (now : Nat) : TranslateResult :=
  let st := assignStreamIdentity st0 freshId now
  let streamId := st.id.getD ("chatcmpl-" ++ freshId)
  let created := st.created.getD now
  let conv1 : ConverterState :=
    if googleResponse.usageMetadata.isSome then
      { streamUsage := some (parseUsage googleResponse) }
    else conv
  match googleResponse.candidates.head? with
  | none =>
    match googleResponse.promptFeedback with
    | some pf =>
      let errorText :=
        "[ProxySystem Error] Request blocked due to safety settings. Finish Reason: "
          ++ jsDisplay pf.blockReason
      { conv := conv1
        state := st
        output := some [{ choices := [{ delta := { content := some errorText }
                                        finish_reason := some "stop", index := 0 }]
                          created := created
                          id := streamId
                          model := modelName
                          object := "chat.completion.chunk"
                          usage := none }] }
    | none => { conv := conv1, state := st, output := none }
  | some candidate =>
    let emitted := emitParts streamId created modelName st candidate.partsList
    if optStrTruthy candidate.finishReason then
      let finalChunk : StreamChunk :=
        { choices := [{ delta := {}, finish_reason := candidate.finishReason, index := 0 }]
          created := created
          id := streamId
          model := modelName
          object := "chat.completion.chunk"
          usage := some conv1.streamUsage }
      let conv2 : ConverterState :=
        if conv1.streamUsage.isSome then { streamUsage := none } else conv1
      let chunks := emitted.2 ++ [finalChunk]
      { conv := conv2, state := emitted.1
        output := if chunks.isEmpty then none else some chunks }
    else
      { conv := conv1, state := emitted.1
        output := if emitted.2.isEmpty then none else some emitted.2 }

/-- Feeding a whole sequence of parsed fragments through the streaming
translator, threading the converter state and the Translation State and
concatenating everything that is written out. -/
def runStream (modelName : String) (freshId : String) (now : Nat) :
    ConverterState → StreamState → List GoogleResponse →
    ConverterState × StreamState × List StreamChunk
  | conv, st, [] => (conv, st, [])
  | conv, st, g :: gs =>
    let r := translateGoogleToOpenAIStream conv g modelName st freshId now
    let rest := runStream modelName freshId now r.conv r.state gs
    (rest.1, rest.2.1, r.output.getD [] ++ rest.2.2)

/-- The content-bearing deltas carried by one fragment, in part order. -/
def fragDeltas (g : GoogleResponse) : List Delta :=
  match g.candidates.head? with
  | some c => c.partsList.filterMap partRawDelta
  | none => []

/-- The content-bearing deltas carried by a fragment sequence, in order. -/
def streamDeltas : List GoogleResponse → List Delta
  | [] => []
  | g :: gs => fragDeltas g ++ streamDeltas gs

/-- The part list of the first candidate of a fragment. -/
def fragParts (g : GoogleResponse) : List Part :=
  match g.candidates.head? with
  | some c => c.partsList
  | none => []

/-- Whether some fragment of a sequence carries an emitted thought part. -/
def streamThought : List GoogleResponse → Bool
  | [] => false
  | g :: gs =>
    (fragParts g).any (fun p => p.thought && optStrTruthy p.text) || streamThought gs

/-- The finishReason of the first candidate of a fragment. -/
def fragFinishReason (g : GoogleResponse) : Option String :=
  match g.candidates.head? with
  | some c => c.finishReason
  | none => none

/-- Attach the assistant role to the first delta of a list. -/
def addRoleFirst : List Delta → List Delta
  | [] => []
  | d :: ds => { d with role := some "assistant" } :: ds

/-- Attach the assistant role to the first delta when the flag is set. -/
def addRoleIf (b : Bool) (ds : List Delta) : List Delta :=
  if b then addRoleFirst ds else ds

/-- The usage record most recently cached from a fragment sequence, starting
from a given cache value: every fragment carrying usageMetadata overwrites
the cache. -/
def lastCachedUsage (acc : Option OpenAIUsage) : List GoogleResponse → Option OpenAIUsage
  | [] => acc
  | g :: gs => lastCachedUsage (if g.usageMetadata.isSome then some (parseUsage g) else acc) gs

/-- A non-final streaming fragment: if it carries a candidate, that candidate
has no truthy finishReason; if it carries no candidate, it carries no
promptFeedback either. -/
def midFragment (g : GoogleResponse) : Prop :=
  match g.candidates.head? with
  | some c => optStrTruthy c.finishReason = false
  | none => g.promptFeedback = none

/-- A final streaming fragment: it carries a candidate with a truthy
finishReason. -/
def finalFragment (g : GoogleResponse) : Prop :=
  match g.candidates.head? with
  | some c => optStrTruthy c.finishReason = true
  | none => False

/-- One typed part of an OpenAI-dialect message content array.  For an
image_url part, the url is none when the part.image_url field itself is
falsy (in which case the source skips the part).  A part with an
unrecognized type is ignored by the source loop. -/
inductive OAIPart where
  | text (text : Option String)
  | imageUrl (url : Option String)
  | otherPart
deriving Repr, DecidableEq

/-- The content of an OpenAI-dialect message: a plain string, an array of
typed parts, or anything else (which yields no Gemini parts). -/
inductive OAIContent where
  | str (s : String)
  | arr (ps : List OAIPart)
  | undef
deriving Repr, DecidableEq

/-- One OpenAI-dialect chat message. -/
structure OAIMessage where
  role : String
  content : OAIContent
deriving Repr, DecidableEq

/-- One Gemini request content part built by the outbound translation. -/
inductive GPart where
  | textPart (text : Option String)
  | inlineDataPart (data : String) (mimeType : String)
deriving Repr, DecidableEq

/-- One entry of the Gemini contents array. -/
structure GContent where
  parts : List GPart
  role : String
deriving Repr, DecidableEq

/-- A nested thinking-config object as sent by a client, with both accepted
key spellings for thought inclusion. -/
structure RawThinkingConfig where
  include_thoughts : Option Bool := none
  includeThoughts : Option Bool := none
deriving Repr, DecidableEq

/-- The google sub-object of extra_body. -/
structure ExtraGoogle where
  thinking_config : Option RawThinkingConfig := none
  thinkingConfig : Option RawThinkingConfig := none
deriving Repr, DecidableEq

/-- The extra_body object of an OpenAI-dialect request. -/
structure ExtraBody where
  google : Option ExtraGoogle := none
  thinkingConfig : Option RawThinkingConfig := none
  thinking_config : Option RawThinkingConfig := none
  reasoning_effort : Option String := none
deriving Repr, DecidableEq

/-- An OpenAI-dialect chat-completions request body.  The numeric generation
parameters are passed through verbatim by the translation; their JSON number
values are abstracted as integers. -/
structure OpenAIRequest where
  messages : List OAIMessage := []
  max_tokens : Option Int := none
  stop : Option (List String) := none
  temperature : Option Int := none
  top_k : Option Int := none
  top_p : Option Int := none
  extra_body : Option ExtraBody := none
  thinkingConfig : Option RawThinkingConfig := none
  thinking_config : Option RawThinkingConfig := none
  reasoning_effort : Option String := none
deriving Repr, DecidableEq

/-- The thinkingConfig object attached to the outbound generationConfig. -/
structure ThinkingConfig where
  includeThoughts : Option Bool := none
deriving Repr, DecidableEq

/-- The outbound generationConfig. -/
structure GenerationConfig where
  maxOutputTokens : Option Int := none
  stopSequences : Option (List String) := none
  temperature : Option Int := none
  topK : Option Int := none
  topP : Option Int := none
  thinkingConfig : Option ThinkingConfig := none
deriving Repr, DecidableEq

/-- One entry of the outbound tools array, recording the JS truthiness of its
googleSearch and urlContext properties. -/
structure GTool where
  googleSearch : Bool := false
  urlContext : Bool := false
deriving Repr, DecidableEq

/-- One outbound safety setting. -/
structure SafetySetting where
  category : String
  threshold : String
deriving Repr, DecidableEq

/-- The outbound Gemini request built by the translation. -/
structure GoogleRequest where
  contents : List GContent
  systemInstruction : Option (List GPart) := none
  generationConfig : GenerationConfig
  tools : Option (List GTool) := none
  safetySettings : List SafetySetting := []
deriving Repr, DecidableEq

/-- The server-wide flags read by the outbound translation. -/
structure ServerSystem where
  forceThinking : Bool := false
  forceWebSearch : Bool := false
  forceUrlContext : Bool := false
deriving Repr, DecidableEq

/-- JS coercion of a message content to a string, as applied by the
newline-join of system message bodies: a string passes through, an array of
part objects stringifies to a comma join of object placeholders, and an
undefined content joins as the empty string. -/
def contentCoerce : OAIContent → String
  | .str s => s
  | .arr ps => String.intercalate "," (ps.map (fun _ => "[object Object]"))
  | .undef => ""

/-- The regex match of a base64 image data URL against
the pattern data colon image slash lazily up to the first base64 marker:
returns the mime type and the base64 payload.  The JS dot does not match a
newline; data URLs contain none, so this is not modelled. -/
def dataUrlMatch (url : String) : Option (String × String) :=
  if url.startsWith "data:image/" then
    let rest := url.drop 5
    match rest.splitOn ";base64," with
    | [] => none
    | [_] => none
    | g1 :: g2 :: gs => some (g1, String.intercalate ";base64," (g2 :: gs))
  else none

/-- The regex test for an http or https URL. -/
def isHttpUrl (url : String) : Bool :=
  url.startsWith "http://" || url.startsWith "https://"

/-- Translation of one OpenAI content part into at most one Gemini part.
The network fetch of an http(s) image together with its mime-type resolution
is an external effect (axios and the mime library); it is modelled by the
fetchImage oracle, which returns the base64 data and mime type on success
and none on failure, in which case the source substitutes a visible text
placeholder. -/
def googlePartOfOAIPart (fetchImage : String → Option (String × String)) :
    OAIPart → Option GPart
  | .text t => some (.textPart t)
  | .imageUrl none => none
  | .imageUrl (some u) =>
    match dataUrlMatch u with
    | some m => some (.inlineDataPart m.2 m.1)
    | none =>
      if isHttpUrl u then
        match fetchImage u with
        | some r => some (.inlineDataPart r.1 r.2)
        | none => some (.textPart (some ("[System Note: Failed to load image from " ++ u ++ "]")))
      else none
  | .otherPart => none

/-- The googleParts list built for one conversation message. -/
def googlePartsOfContent (fetchImage : String → Option (String × String)) :
    OAIContent → List GPart
  | .str s => [.textPart (some s)]
  | .arr ps => ps.filterMap (googlePartOfOAIPart fetchImage)
  | .undef => []

/-- The chain of accepted key spellings for an explicit nested
thinking-config object, first truthy value wins (objects are always
truthy). -/
def rawThinkingOf (openaiBody : OpenAIRequest) : Option RawThinkingConfig :=
  let extraBody := openaiBody.extra_body.getD {}
  (extraBody.google.bind (·.thinking_config))
    <|> (extraBody.google.bind (·.thinkingConfig))
    <|> extraBody.thinkingConfig
    <|> extraBody.thinking_config
    <|> openaiBody.thinkingConfig
    <|> openaiBody.thinking_config

/-- Conversion of a raw thinking-config object: the snake-case key is
consulted first, then the camel-case key; an explicitly false value is
still copied (the source tests against undefined, not truthiness). -/
def convertRawThinking (raw : RawThinkingConfig) : ThinkingConfig :=
  match raw.include_thoughts with
  | some b => { includeThoughts := some b }
  | none =>
    match raw.includeThoughts with
    | some b => { includeThoughts := some b }
    | none => {}

/-- JS string disjunction: the first operand wins when truthy. -/
def jsOrString (a b : Option String) : Option String :=
  if optStrTruthy a then a else b

/-- Append a tool descriptor unless some entry of the list already satisfies
the membership test (the hasSearch / hasUrlContext guard of the source). -/
def addToolIfMissing (p : GTool → Bool) (x : GTool) (l : List GTool) : List GTool :=
  if l.any p then l else l ++ [x]

/-- The force-web-search / force-URL-context tool injection block of the
outbound translation, acting on the tools field of the request object. -/
def injectForceTools (serverSystem : ServerSystem) (tools0 : Option (List GTool)) :
    Option (List GTool) :=
  if serverSystem.forceWebSearch || serverSystem.forceUrlContext then
    let ts0 := tools0.getD []
    let ts1 :=
      if serverSystem.forceWebSearch then
        addToolIfMissing (·.googleSearch) { googleSearch := true } ts0
      else ts0
    let ts2 :=
      if serverSystem.forceUrlContext then
        addToolIfMissing (·.urlContext) { urlContext := true } ts1
      else ts1
    some ts2
  else tools0

/-- FormatConverter.translateOpenAIToGoogle.  The fetchImage oracle stands
for the axios image download (see googlePartOfOAIPart). -/
def translateOpenAIToGoogle (serverSystem : ServerSystem)
    (fetchImage : String → Option (String × String)) (openaiBody : OpenAIRequest) :
    GoogleRequest :=
  let systemMessages := openaiBody.messages.filter (fun m => m.role == "system")
  let systemInstruction : Option (List GPart) :=
    if systemMessages.length > 0 then
      some [.textPart (some (String.intercalate "\n"
        (systemMessages.map (fun m => contentCoerce m.content))))]
    else none
  let conversationMessages := openaiBody.messages.filter (fun m => m.role != "system")
  let googleContents := conversationMessages.map (fun m =>
    { parts := googlePartsOfContent fetchImage m.content
      role := if m.role == "assistant" then "model" else "user" : GContent })
  let extraBody := openaiBody.extra_body.getD {}
  let thinkingAfterExplicit : Option ThinkingConfig :=
    (rawThinkingOf openaiBody).map convertRawThinking
  let thinkingAfterEffort : Option ThinkingConfig :=
    match thinkingAfterExplicit with
    | some tc => some tc
    | none =>
      if optStrTruthy (jsOrString openaiBody.reasoning_effort extraBody.reasoning_effort) then
        some { includeThoughts := some true }
      else none
  let thinkingFinal : Option ThinkingConfig :=
    match thinkingAfterEffort with
    | some tc => some tc
    | none =>
      if serverSystem.forceThinking then some { includeThoughts := some true } else none
  { contents := googleContents
    systemInstruction := systemInstruction
    generationConfig :=
      { maxOutputTokens := openaiBody.max_tokens
        stopSequences := openaiBody.stop
        temperature := openaiBody.temperature
        topK := openaiBody.top_k
        topP := openaiBody.top_p
        thinkingConfig := thinkingFinal }
    tools := injectForceTools serverSystem none
    safetySettings :=
      [{ category := "HARM_CATEGORY_HARASSMENT", threshold := "BLOCK_NONE" },
       { category := "HARM_CATEGORY_HATE_SPEECH", threshold := "BLOCK_NONE" },
       { category := "HARM_CATEGORY_SEXUALLY_EXPLICIT", threshold := "BLOCK_NONE" },
       { category := "HARM_CATEGORY_DANGEROUS_CONTENT", threshold := "BLOCK_NONE" }] }

/-- A parsed inbound duplex-channel message as read by the registry: only the
request_id and event_type fields are consulted for routing. -/
structure ParsedMessage where
  request_id : Option String := none
  event_type : Option String := none
deriving Repr, DecidableEq

/-- An event stored in a Message Queue: either a routed message enqueued
verbatim, or the terminal sentinel produced for stream_close. -/
inductive QueueEvent where
  | message (m : ParsedMessage)
  | streamEnd
deriving Repr, DecidableEq

/-- Modelled from the spec: the Message Queue implementation
(src/utils/messageQueue.js) is not among the provided sources; per the
specification it is an ordered closable buffer whose enqueue appends when
OPEN and is a no-op when CLOSED, and whose close is idempotent and
terminal. -/
structure MessageQueue where
  events : List QueueEvent := []
  closed : Bool := false
deriving Repr, DecidableEq

/-- Modelled from the spec: enqueue appends an event if the queue is OPEN,
else is a no-op. -/
def MessageQueue.enqueue (q : MessageQueue) (e : QueueEvent) : MessageQueue :=
  if q.closed then q else { q with events := q.events ++ [e] }

/-- Modelled from the spec: close transitions the queue to CLOSED and is
idempotent. -/
def MessageQueue.close (q : MessageQueue) : MessageQueue :=
  { q with closed := true }

/-- The state of the Connection Registry: the peer set (peers abstracted as
numbers), the request-id keyed queue map (an association list with unique
keys), and the stored reconnect grace timer handle (timer handles abstracted
as generation numbers). -/
structure RegistryState where
  connections : List Nat := []
  messageQueues : List (String × MessageQueue) := []
  reconnectGraceTimer : Option Nat := none
deriving Repr, DecidableEq

/-- Lookup in the queue map. -/
def qLookup (m : List (String × MessageQueue)) (k : String) : Option MessageQueue :=
  (m.find? (fun p => p.1 == k)).map (·.2)

/-- Replace the value stored under a key of the queue map. -/
def qUpdate (m : List (String × MessageQueue)) (k : String) (v : MessageQueue) :
    List (String × MessageQueue) :=
  m.map (fun p => if p.1 == k then (k, v) else p)

/-- An inbound duplex-channel payload: either a string that is not parseable
JSON, or the parsed message object. -/
inductive InboundData where
  | unparseable (raw : String)
  | parsed (m : ParsedMessage)
deriving Repr, DecidableEq

/-- ConnectionRegistry._routeMessage: dispatch one routed message into its
queue by event tag; response_headers, chunk and error are enqueued verbatim,
stream_close becomes the terminal sentinel, anything else is dropped with a
warning. -/
def routeMessage (st : RegistryState) (m : ParsedMessage) (rid : String) (q : MessageQueue) :
    RegistryState :=
  match m.event_type with
  | some "response_headers" =>
    { st with messageQueues := qUpdate st.messageQueues rid (q.enqueue (.message m)) }
  | some "chunk" =>
    { st with messageQueues := qUpdate st.messageQueues rid (q.enqueue (.message m)) }
  | some "error" =>
    { st with messageQueues := qUpdate st.messageQueues rid (q.enqueue (.message m)) }
  | some "stream_close" =>
    { st with messageQueues := qUpdate st.messageQueues rid (q.enqueue .streamEnd) }
  | _ => st

/-- The body of ConnectionRegistry._handleIncomingMessage inside its try
block: a JSON parse failure raises, a falsy request_id and an unknown
request id are logged and ignored, a known id dispatches to its queue. -/
def handleIncomingMessageAux (st : RegistryState) (d : InboundData) :
    Except String RegistryState :=
  match d with
  | .unparseable raw => .error ("Unable to parse: " ++ raw)
  | .parsed m =>
    if !(optStrTruthy m.request_id) then .ok st
    else
      let rid := m.request_id.getD ""
      match qLookup st.messageQueues rid with
      | some q => .ok (routeMessage st m rid q)
      | none => .ok st

/-- ConnectionRegistry._handleIncomingMessage: the surrounding catch absorbs
any raised error, logging it and leaving the registry untouched. -/
def handleIncomingMessage (st : RegistryState) (d : InboundData) : RegistryState :=
  match handleIncomingMessageAux st d with
  | .ok st1 => st1
  | .error _ => st

/-- The registry simulation state for the peer-lifecycle step relation: the
registry state plus the scheduler model (the set of genuinely pending timer
generations, a fresh-generation counter) and ghost history fields recording
which timer generations were cancelled or fired, which queues were closed,
and which notifications were emitted. -/
structure RegSim where
  reg : RegistryState := {}
  pending : List Nat := []
  nextGen : Nat := 0
  cancelled : List Nat := []
  fired : List Nat := []
  closedLog : List String := []
  notifications : List String := []
deriving Repr, DecidableEq

/-- Set-semantics insertion into the peer list. -/
def peerAdd (conns : List Nat) (p : Nat) : List Nat :=
  if conns.contains p then conns else conns ++ [p]

/-- ConnectionRegistry.addConnection: a pending grace timer is cleared
(clearTimeout actually cancels the timer only if it is still pending; on an
already fired timer it is a no-op) and the stored handle nulled, then the
peer is registered. -/
def addConnection (s : RegSim) (p : Nat) : RegSim :=
  let s1 :=
    match s.reg.reconnectGraceTimer with
    | some g =>
      { s with
        reg := { s.reg with reconnectGraceTimer := none }
        pending := s.pending.filter (fun x => x != g)
        cancelled := match s.pending.contains g with
          | true => g :: s.cancelled
          | false => s.cancelled }
    | none => s
  { s1 with
    reg := { s1.reg with connections := peerAdd s1.reg.connections p }
    notifications := s1.notifications ++ ["connectionAdded"] }

/-- ConnectionRegistry._removeConnection: the peer is dropped and a fresh
grace timer is scheduled; the stored handle is overwritten (the source does
not clear a previously stored handle). -/
def removeConnection (s : RegSim) (p : Nat) : RegSim :=
  { s with
    reg := { s.reg with
             connections := s.reg.connections.filter (fun x => x != p)
             reconnectGraceTimer := some s.nextGen }
    pending := s.pending ++ [s.nextGen]
    nextGen := s.nextGen + 1
    notifications := s.notifications ++ ["connectionRemoved"] }

/-- The grace timer callback: every outstanding Message Queue is closed, the
queue map is cleared, and connectionLost is emitted.  The source does not
null the stored handle here. -/
def fireGraceTimer (s : RegSim) (g : Nat) : RegSim :=
  { s with
    pending := s.pending.filter (fun x => x != g)
    fired := g :: s.fired
    reg := { s.reg with messageQueues := [] }
    closedLog := s.closedLog ++ s.reg.messageQueues.map Prod.fst
    notifications := s.notifications ++ ["connectionLost"] }

/-- Set the value stored under a key of the queue map, inserting when the
key is absent (JS Map.set). -/
def qSet (m : List (String × MessageQueue)) (k : String) (v : MessageQueue) :
    List (String × MessageQueue) :=
  if m.any (fun p => p.1 == k) then qUpdate m k v else m ++ [(k, v)]

/-- ConnectionRegistry.removeMessageQueue: an existing queue is closed and
dropped from the map. -/
def removeQueueSim (s : RegSim) (rid : String) : RegSim :=
  match qLookup s.reg.messageQueues rid with
  | some _ =>
    { s with
      reg := { s.reg with messageQueues := s.reg.messageQueues.filter (fun p => p.1 != rid) }
      closedLog := s.closedLog ++ [rid] }
  | none => s

/-- An action of the registry peer-lifecycle transition system. -/
inductive RegAction where
  | addConn (p : Nat)
  | removeConn (p : Nat)
  | graceTimerFire (g : Nat)
  | createQueue (rid : String)
  | removeQueue (rid : String)
deriving Repr, DecidableEq

/-- One step of the transition system; a timer may only fire while it is
genuinely pending (none marks a disabled action). -/
def regStep (s : RegSim) : RegAction → Option RegSim
  | .addConn p => some (addConnection s p)
  | .removeConn p => some (removeConnection s p)
  | .graceTimerFire g =>
    match s.pending.contains g with
    | true => some (fireGraceTimer s g)
    | false => none
  | .createQueue rid =>
    some { s with reg := { s.reg with messageQueues := qSet s.reg.messageQueues rid {} } }
  | .removeQueue rid => some (removeQueueSim s rid)

/-- Run of the transition system; disabled actions are skipped. -/
def regRun : RegSim → List RegAction → RegSim
  | s, [] => s
  | s, a :: as => regRun ((regStep s a).getD s) as

/-- The initial registry simulation state. -/
def initRegSim : RegSim := {}

/-- Generation bookkeeping invariant of the simulation: pending, cancelled
and fired generations are all below the fresh counter, and the three
classes are mutually exclusive. -/
def GenInv (s : RegSim) : Prop :=
  (∀ g ∈ s.pending, g < s.nextGen ∧ g ∉ s.cancelled ∧ g ∉ s.fired) ∧
  (∀ g ∈ s.cancelled, g < s.nextGen ∧ g ∉ s.fired) ∧
  (∀ g ∈ s.fired, g < s.nextGen)

/-- Stated from the spec sentence behind claim C4: the thinking configuration
is resolved by strict priority — an explicit nested thinking-config object
wins, else a truthy reasoning-effort flag forces thought inclusion, else the
server-wide force-thinking override injects it, else nothing is attached. -/
def thinkingPrioritySpec (serverSystem : ServerSystem) (body : OpenAIRequest) :
    Option ThinkingConfig :=
  match rawThinkingOf body with
  | some raw => some (convertRawThinking raw)
  | none =>
    if optStrTruthy (jsOrString body.reasoning_effort ((body.extra_body.getD {}).reasoning_effort))
    then some { includeThoughts := some true }
    else if serverSystem.forceThinking then some { includeThoughts := some true }
    else none

/-- Whether a message content is a plain string. -/
def isStringContent : OAIContent → Bool
  | .str _ => true
  | _ => false

/-- The string of a plain-string message content. -/
def theString : OAIContent → String
  | .str s => s
  | _ => ""

/-- Number of googleSearch tool descriptors in a tools field. -/
def countSearchTools (o : Option (List GTool)) : Nat :=
  ((o.getD []).filter (·.googleSearch)).length

/-- Number of urlContext tool descriptors in a tools field. -/
def countUrlTools (o : Option (List GTool)) : Nat :=
  ((o.getD []).filter (·.urlContext)).length

/-- The remote response of the specification scenario behind claim C1: one
candidate with a single text part hello, finishReason STOP, and usage
promptTokenCount 3, candidatesTokenCount 2. -/
def c1Response : GoogleResponse :=
  { candidates := [{ content := some { parts := some [{ text := some "hello" }] }
                     finishReason := some "STOP" }]
    usageMetadata := some { promptTokenCount := some 3, candidatesTokenCount := some 2 } }

/-- A streaming fragment carrying only a finishReason and no usage metadata,
used to exhibit the terminal chunk produced when usage never arrived. -/
def finishOnlyFragment : GoogleResponse :=
  { candidates := [{ finishReason := some "STOP" }] }

/-- A content-bearing mid-stream fragment used by concrete instantiations:
two text parts, one thought part, and usage metadata. -/
def sampleMidFragment : GoogleResponse :=
  { candidates := [{ content := some { parts := some [{ text := some "he" },
      { thought := true, text := some "think" }, { text := some "llo" }] } }]
    usageMetadata := some { promptTokenCount := some 3, candidatesTokenCount := some 2
                            totalTokenCount := some 5 } }

/-- A concrete usage metadata value with every field populated, used to
instantiate the usage-accounting theorem. -/
def c6WitnessUsage : UsageMetadata :=
  { candidatesTokensDetails := some [{ modality := some "IMAGE", tokenCount := some 7 },
      { modality := some "TEXT", tokenCount := some 4 }]
    promptTokenCount := some 10, toolUsePromptTokenCount := some 2
    candidatesTokenCount := some 5, thoughtsTokenCount := some 3
    totalTokenCount := some 20 }

/-! Theorems. -/

/-- The running image-token sum of the usage parser equals the sum of
tokenCount over the IMAGE-modality detail entries. -/
theorem imageTokensSum_eq (ds : List TokensDetail) :
    imageTokensSum ds =
      ((ds.filter (fun d => d.modality == some "IMAGE")).map (fun d => d.tokenCount.getD 0)).sum := by
  induction ds with
  | nil => rfl
  | cons d ds ih =>
    cases hd : (d.modality == some "IMAGE") <;>
      simp [imageTokensSum, List.filter_cons, hd, ih]

/-- C1 counterexample: on the specification scenario the code returns the
remote finish reason verbatim, so finish_reason is the uppercase STOP and
not the lowercase stop that the claim states. -/
theorem c1_counterexample :
    (convertGoogleToOpenAINonStream c1Response "x" 0 "rid").choices.map
        (fun ch => ch.finish_reason) ≠ ["stop"] ∧
    (convertGoogleToOpenAINonStream c1Response "x" 0 "rid").choices.map
        (fun ch => ch.finish_reason) = ["STOP"] := by
  constructor
  · decide
  · rfl

/-- C1 (amended): on the specification scenario the non-streaming conversion
returns message.content hello, finish_reason STOP (the remote finish reason
passed through verbatim), usage.prompt_tokens 3 and usage.completion_tokens
2. -/
theorem c1_nonstream_scenario (modelName : String) (created : Nat) (requestId : String) :
    (convertGoogleToOpenAINonStream c1Response modelName created requestId).choices.map
        (fun ch => (ch.message.content, ch.finish_reason)) = [("hello", "STOP")] ∧
    (convertGoogleToOpenAINonStream c1Response modelName created requestId).usage.prompt_tokens
        = 3 ∧
    (convertGoogleToOpenAINonStream c1Response modelName created requestId).usage.completion_tokens
        = 2 :=
  ⟨rfl, rfl, rfl⟩

/-- C10: a remote non-streaming response without candidates converts to a
well-formed completion with empty assistant content, finish_reason stop and
an all-zero usage record. -/
theorem c10_empty_response (g : GoogleResponse) (modelName : String) (created : Nat)
    (requestId : String) (h : g.candidates = []) :
    (convertGoogleToOpenAINonStream g modelName created requestId).choices =
      [{ finish_reason := "stop", index := 0
         message := { content := "", role := "assistant" } }] ∧
    (convertGoogleToOpenAINonStream g modelName created requestId).usage =
      { completion_tokens := 0, prompt_tokens := 0, total_tokens := 0 } := by
  simp [convertGoogleToOpenAINonStream, h]

/-- C10 witness: the conversion of the empty response. -/
theorem c10_empty_response_witness :
    ({} : GoogleResponse).candidates = [] ∧
    ((convertGoogleToOpenAINonStream {} "m" 0 "r").choices =
      [{ finish_reason := "stop", index := 0
         message := { content := "", role := "assistant" } }] ∧
    (convertGoogleToOpenAINonStream {} "m" 0 "r").usage =
      { completion_tokens := 0, prompt_tokens := 0, total_tokens := 0 }) :=
  ⟨rfl, c10_empty_response {} "m" 0 "r" rfl⟩

/-- C6: for a response carrying usage metadata the translated record has
prompt_tokens equal to promptTokenCount plus toolUsePromptTokenCount,
completion_tokens equal to candidatesTokenCount plus thoughtsTokenCount, the
image-token sum reported only inside completion_tokens_details, and
total_tokens the verbatim totalTokenCount (absent fields counting as
zero). -/
theorem c6_usage_accounting (g : GoogleResponse) (u : UsageMetadata)
    (h : g.usageMetadata = some u) :
    (parseUsage g).prompt_tokens
        = u.promptTokenCount.getD 0 + u.toolUsePromptTokenCount.getD 0 ∧
    (parseUsage g).completion_tokens
        = u.candidatesTokenCount.getD 0 + u.thoughtsTokenCount.getD 0 ∧
    (parseUsage g).completion_tokens_details = some
      { image_tokens := (((u.candidatesTokensDetails.getD []).filter
            (fun d => d.modality == some "IMAGE")).map (fun d => d.tokenCount.getD 0)).sum
        output_text_tokens := u.candidatesTokenCount.getD 0
        reasoning_tokens := u.thoughtsTokenCount.getD 0 } ∧
    (parseUsage g).total_tokens = u.totalTokenCount.getD 0 := by
  cases hds : u.candidatesTokensDetails <;>
    simp [parseUsage, h, hds, imageTokensSum_eq, imageTokensSum]

/-- C6 witness: a concrete usage record with tool, thought and image detail
entries. -/
theorem c6_usage_accounting_witness :
    ({ candidatesTokensDetails := some [{ modality := some "IMAGE", tokenCount := some 7 },
         { modality := some "TEXT", tokenCount := some 4 }]
       promptTokenCount := some 10, toolUsePromptTokenCount := some 2
       candidatesTokenCount := some 5, thoughtsTokenCount := some 3
       totalTokenCount := some 20 } : UsageMetadata) = c6WitnessUsage ∧
    ((parseUsage { usageMetadata := some c6WitnessUsage }).prompt_tokens
        = c6WitnessUsage.promptTokenCount.getD 0 + c6WitnessUsage.toolUsePromptTokenCount.getD 0 ∧
    (parseUsage { usageMetadata := some c6WitnessUsage }).completion_tokens
        = c6WitnessUsage.candidatesTokenCount.getD 0 + c6WitnessUsage.thoughtsTokenCount.getD 0 ∧
    (parseUsage { usageMetadata := some c6WitnessUsage }).completion_tokens_details = some
      { image_tokens := (((c6WitnessUsage.candidatesTokensDetails.getD []).filter
            (fun d => d.modality == some "IMAGE")).map (fun d => d.tokenCount.getD 0)).sum
        output_text_tokens := c6WitnessUsage.candidatesTokenCount.getD 0
        reasoning_tokens := c6WitnessUsage.thoughtsTokenCount.getD 0 } ∧
    (parseUsage { usageMetadata := some c6WitnessUsage }).total_tokens
        = c6WitnessUsage.totalTokenCount.getD 0) :=
  ⟨rfl, c6_usage_accounting { usageMetadata := some c6WitnessUsage } c6WitnessUsage rfl⟩

/-- C7: a parseable streaming fragment without candidates but with a
promptFeedback safety-block notice yields exactly one chunk whose delta
content is the visible error message naming the block reason and whose
finish_reason is the terminal value stop. -/
theorem c7_safety_block (conv : ConverterState) (g : GoogleResponse)
    (modelName freshId : String) (st : StreamState) (now : Nat) (pf : PromptFeedback)
    (hc : g.candidates = []) (hpf : g.promptFeedback = some pf) :
    (translateGoogleToOpenAIStream conv g modelName st freshId now).output.map
        (fun chunks => chunks.map (fun c => c.choices.map (fun ch => (ch.delta, ch.finish_reason))))
      = some [[({ content := some (
            "[ProxySystem Error] Request blocked due to safety settings. Finish Reason: "
              ++ jsDisplay pf.blockReason) }, some "stop")]] := by
  simp [translateGoogleToOpenAIStream, hc, hpf]

/-- C7 witness: a fragment blocked with reason SAFETY. -/
theorem c7_safety_block_witness :
    ({ promptFeedback := some { blockReason := some "SAFETY" } } : GoogleResponse).candidates
        = [] ∧
    ({ promptFeedback := some { blockReason := some "SAFETY" } } : GoogleResponse).promptFeedback
        = some { blockReason := some "SAFETY" } ∧
    (translateGoogleToOpenAIStream {} { promptFeedback := some { blockReason := some "SAFETY" } }
        "m" {} "r" 0).output.map
        (fun chunks => chunks.map (fun c => c.choices.map (fun ch => (ch.delta, ch.finish_reason))))
      = some [[({ content := some (
            "[ProxySystem Error] Request blocked due to safety settings. Finish Reason: "
              ++ jsDisplay (some "SAFETY")) }, some "stop")]] :=
  ⟨rfl, rfl,
    c7_safety_block {} { promptFeedback := some { blockReason := some "SAFETY" } }
      "m" "r" {} 0 { blockReason := some "SAFETY" } rfl rfl⟩

/-- C5 counterexample: the injection only guards its own insertions, so a
starting tools array that already contains two googleSearch descriptors
keeps both of them — the descriptor does not appear at most once for every
starting tools array. -/
theorem c5_counterexample :
    ¬ countSearchTools (injectForceTools { forceWebSearch := true }
        (some [{ googleSearch := true }, { googleSearch := true }])) ≤ 1 := by
  decide

/-- Adding a descriptor that satisfies the test makes the test hold. -/
theorem addToolIfMissing_any_self (p : GTool → Bool) (x : GTool) (l : List GTool)
    (hx : p x = true) : (addToolIfMissing p x l).any p = true := by
  cases h : l.any p <;> simp [addToolIfMissing, h, hx]

/-- When the test already holds, nothing is added. -/
theorem addToolIfMissing_of_any (p : GTool → Bool) (x : GTool) (l : List GTool)
    (h : l.any p = true) : addToolIfMissing p x l = l := by
  simp [addToolIfMissing, h]

/-- Guarded adding preserves satisfaction of any other test. -/
theorem addToolIfMissing_any_other (p q : GTool → Bool) (x : GTool) (l : List GTool)
    (h : l.any q = true) : (addToolIfMissing p x l).any q = true := by
  cases hp : l.any p <;> simp [addToolIfMissing, hp, List.any_append, h]

/-- A list in which the test holds nowhere has an empty filtration. -/
theorem filterLength_zero_of_any_false {α : Type} {l : List α} {p : α → Bool}
    (h : l.any p = false) : (l.filter p).length = 0 := by
  rw [List.any_eq_false] at h
  simp [List.filter_eq_nil_iff.mpr h]

/-- Guarded adding never pushes the descriptor count above one. -/
theorem addToolIfMissing_filter_le (p : GTool → Bool) (x : GTool) (l : List GTool)
    (h : (l.filter p).length ≤ 1) :
    ((addToolIfMissing p x l).filter p).length ≤ 1 := by
  cases ha : l.any p
  · have h0 := filterLength_zero_of_any_false ha
    cases hx : p x <;> simp [addToolIfMissing, ha, List.filter_append, hx, h0]
  · simpa [addToolIfMissing, ha] using h

/-- Guarded adding of a descriptor the other test rejects leaves the other
filtration unchanged. -/
theorem addToolIfMissing_filter_other (p q : GTool → Bool) (x : GTool) (l : List GTool)
    (hx : q x = false) :
    (addToolIfMissing p x l).filter q = l.filter q := by
  cases ha : l.any p <;> simp [addToolIfMissing, ha, List.filter_append, hx]

/-- C5 (amended): injecting the force-web-search and force-URL-context tools
twice yields the same tools list as injecting once; and whenever a
descriptor occurs at most once in the starting tools array (in particular in
the fresh empty array of an outbound request) it occurs at most once in the
result. -/
theorem c5_inject_idempotent (sys : ServerSystem) (ts : Option (List GTool)) :
    injectForceTools sys (injectForceTools sys ts) = injectForceTools sys ts ∧
    (countSearchTools ts ≤ 1 → countSearchTools (injectForceTools sys ts) ≤ 1) ∧
    (countUrlTools ts ≤ 1 → countUrlTools (injectForceTools sys ts) ≤ 1) := by
  obtain ⟨ft, ws, uc⟩ := sys
  cases ws <;> cases uc
  · simp [injectForceTools]
  · -- only force-url-context
    have hU := addToolIfMissing_any_self (·.urlContext) { urlContext := true } (ts.getD []) rfl
    refine ⟨?_, fun h => ?_, fun h => ?_⟩
    · simp [injectForceTools, addToolIfMissing_of_any _ _ _ hU]
    · have he := addToolIfMissing_filter_other (·.urlContext) (·.googleSearch)
        { urlContext := true } (ts.getD []) rfl
      simpa [injectForceTools, countSearchTools, he] using h
    · have h1 : ((ts.getD []).filter (·.urlContext)).length ≤ 1 := by
        simpa [countUrlTools] using h
      simpa [injectForceTools, countUrlTools] using
        addToolIfMissing_filter_le (·.urlContext) { urlContext := true } (ts.getD []) h1
  · -- only force-web-search
    have hS := addToolIfMissing_any_self (·.googleSearch) { googleSearch := true } (ts.getD []) rfl
    refine ⟨?_, fun h => ?_, fun h => ?_⟩
    · simp [injectForceTools, addToolIfMissing_of_any _ _ _ hS]
    · have h1 : ((ts.getD []).filter (·.googleSearch)).length ≤ 1 := by
        simpa [countSearchTools] using h
      simpa [injectForceTools, countSearchTools] using
        addToolIfMissing_filter_le (·.googleSearch) { googleSearch := true } (ts.getD []) h1
    · have he := addToolIfMissing_filter_other (·.googleSearch) (·.urlContext)
        { googleSearch := true } (ts.getD []) rfl
      simpa [injectForceTools, countUrlTools, he] using h
  · -- both forced
    have hS1 := addToolIfMissing_any_self (·.googleSearch) { googleSearch := true }
      (ts.getD []) rfl
    have hS2 := addToolIfMissing_any_other (·.urlContext) (·.googleSearch) { urlContext := true }
      (addToolIfMissing (·.googleSearch) { googleSearch := true } (ts.getD [])) hS1
    have hU2 := addToolIfMissing_any_self (·.urlContext) { urlContext := true }
      (addToolIfMissing (·.googleSearch) { googleSearch := true } (ts.getD [])) rfl
    refine ⟨?_, fun h => ?_, fun h => ?_⟩
    · simp [injectForceTools, addToolIfMissing_of_any _ _ _ hS2,
        addToolIfMissing_of_any _ _ _ hU2]
    · have h1 : ((ts.getD []).filter (·.googleSearch)).length ≤ 1 := by
        simpa [countSearchTools] using h
      have h2 := addToolIfMissing_filter_le (·.googleSearch) { googleSearch := true }
        (ts.getD []) h1
      have he := addToolIfMissing_filter_other (·.urlContext) (·.googleSearch)
        { urlContext := true }
        (addToolIfMissing (·.googleSearch) { googleSearch := true } (ts.getD [])) rfl
      simpa [injectForceTools, countSearchTools, he] using h2
    · have h1 : ((ts.getD []).filter (·.urlContext)).length ≤ 1 := by
        simpa [countUrlTools] using h
      have he := addToolIfMissing_filter_other (·.googleSearch) (·.urlContext)
        { googleSearch := true } (ts.getD []) rfl
      have h2 : ((addToolIfMissing (·.googleSearch) { googleSearch := true }
          (ts.getD [])).filter (·.urlContext)).length ≤ 1 := by
        rw [he]; exact h1
      simpa [injectForceTools, countUrlTools] using
        addToolIfMissing_filter_le (·.urlContext) { urlContext := true }
          (addToolIfMissing (·.googleSearch) { googleSearch := true } (ts.getD [])) h2

/-- C5 witness: injecting into the fresh tools field of an outbound request
with both force flags enabled. -/
theorem c5_inject_idempotent_witness :
    countSearchTools none ≤ 1 ∧ countUrlTools none ≤ 1 ∧
    (injectForceTools { forceWebSearch := true, forceUrlContext := true }
        (injectForceTools { forceWebSearch := true, forceUrlContext := true } none)
      = injectForceTools { forceWebSearch := true, forceUrlContext := true } none ∧
    (countSearchTools none ≤ 1 →
      countSearchTools (injectForceTools { forceWebSearch := true, forceUrlContext := true }
        none) ≤ 1) ∧
    (countUrlTools none ≤ 1 →
      countUrlTools (injectForceTools { forceWebSearch := true, forceUrlContext := true }
        none) ≤ 1)) :=
  ⟨by decide, by decide,
    c5_inject_idempotent { forceWebSearch := true, forceUrlContext := true } none⟩

/-- C4: the thinkingConfig attached to the outbound generationConfig is
resolved exactly by the strict priority of the specification: explicit
nested thinking-config object, else truthy reasoning-effort flag, else the
server-wide force-thinking override, else nothing. -/
theorem c4_thinking_priority (sys : ServerSystem)
    (fetchImage : String → Option (String × String)) (body : OpenAIRequest) :
    (translateOpenAIToGoogle sys fetchImage body).generationConfig.thinkingConfig =
      thinkingPrioritySpec sys body := by
  cases hr : rawThinkingOf body
  · cases he : optStrTruthy
        (jsOrString body.reasoning_effort ((body.extra_body.getD {}).reasoning_effort)) <;>
      simp [translateOpenAIToGoogle, thinkingPrioritySpec, hr, he]
  · simp [translateOpenAIToGoogle, thinkingPrioritySpec, hr]

/-- C3: for a request whose messages all carry plain-string content, the
outbound contents array has exactly one entry per non-system message, in the
original order, with role model for assistant messages and user
otherwise. -/
theorem c3_contents_mapping (sys : ServerSystem)
    (fetchImage : String → Option (String × String)) (body : OpenAIRequest)
    (h : ∀ m ∈ body.messages, isStringContent m.content = true) :
    (translateOpenAIToGoogle sys fetchImage body).contents =
      (body.messages.filter (fun m => m.role != "system")).map (fun m =>
        { parts := [GPart.textPart (some (theString m.content))]
          role := if m.role == "assistant" then "model" else "user" }) := by
  simp only [translateOpenAIToGoogle]
  apply List.map_congr_left
  intro m hm
  have hmem : m ∈ body.messages := List.mem_of_mem_filter hm
  have hstr := h m hmem
  cases hc : m.content <;> simp [hc, isStringContent] at hstr ⊢
  simp [googlePartsOfContent, theString, hc]

/-- C3 witness: a request with a system, a user and an assistant message. -/
theorem c3_contents_mapping_witness :
    (∀ m ∈ ({ messages := [{ role := "system", content := .str "sys" },
        { role := "user", content := .str "hi" },
        { role := "assistant", content := .str "yo" }] } : OpenAIRequest).messages,
      isStringContent m.content = true) ∧
    (translateOpenAIToGoogle {} (fun _ => none)
        { messages := [{ role := "system", content := .str "sys" },
          { role := "user", content := .str "hi" },
          { role := "assistant", content := .str "yo" }] }).contents =
      (({ messages := [{ role := "system", content := .str "sys" },
          { role := "user", content := .str "hi" },
          { role := "assistant", content := .str "yo" }] } : OpenAIRequest).messages.filter
            (fun m => m.role != "system")).map (fun m =>
        { parts := [GPart.textPart (some (theString m.content))]
          role := if m.role == "assistant" then "model" else "user" }) :=
  ⟨by decide,
    c3_contents_mapping {} (fun _ => none)
      { messages := [{ role := "system", content := .str "sys" },
        { role := "user", content := .str "hi" },
        { role := "assistant", content := .str "yo" }] } (by decide)⟩

/-- C8: an inbound duplex-channel message that is not parseable JSON, or
whose request id is falsy or has no registered Message Queue, leaves the
registry state — every queue and the peer set — exactly unchanged, and the
raised parse error is absorbed by the handler. -/
theorem c8_unroutable_messages (st : RegistryState) (d : InboundData)
    (h : (∃ raw, d = .unparseable raw) ∨
      (∃ m, d = .parsed m ∧ (optStrTruthy m.request_id = false ∨
        qLookup st.messageQueues (m.request_id.getD "") = none))) :
    handleIncomingMessage st d = st := by
  rcases h with ⟨raw, rfl⟩ | ⟨m, rfl, hm⟩
  · rfl
  · rcases hm with hfalsy | hnone
    · simp [handleIncomingMessage, handleIncomingMessageAux, hfalsy]
    · cases htr : optStrTruthy m.request_id <;>
        simp [handleIncomingMessage, handleIncomingMessageAux, htr, hnone]

/-- C8 witness: a registry with one queue receives an unparseable payload
and a message for an unknown request id. -/
theorem c8_unroutable_messages_witness :
    (∃ raw, InboundData.unparseable "oops" = InboundData.unparseable raw) ∧
    handleIncomingMessage { messageQueues := [("a", {})] } (.unparseable "oops")
      = { messageQueues := [("a", {})] } ∧
    (∃ m, InboundData.parsed { request_id := some "b", event_type := some "chunk" }
        = InboundData.parsed m ∧
      (optStrTruthy m.request_id = false ∨
        qLookup ({ messageQueues := [("a", {})] } : RegistryState).messageQueues
          (m.request_id.getD "") = none)) ∧
    handleIncomingMessage { messageQueues := [("a", {})] }
        (.parsed { request_id := some "b", event_type := some "chunk" })
      = { messageQueues := [("a", {})] } :=
  ⟨⟨"oops", rfl⟩,
    c8_unroutable_messages { messageQueues := [("a", {})] } (.unparseable "oops")
      (Or.inl ⟨"oops", rfl⟩),
    ⟨{ request_id := some "b", event_type := some "chunk" }, rfl, Or.inr (by decide)⟩,
    c8_unroutable_messages { messageQueues := [("a", {})] }
      (.parsed { request_id := some "b", event_type := some "chunk" })
      (Or.inr ⟨{ request_id := some "b", event_type := some "chunk" }, rfl,
        Or.inr (by decide)⟩)⟩

/-- A delta built from a part never carries the role field. -/
theorem partRawDelta_role_none {p : Part} {d : Delta} (h : partRawDelta p = some d) :
    d.role = none := by
  unfold partRawDelta at h
  split at h
  · split at h
    · injection h with h2; subst h2; rfl
    · exact Option.noConfusion h
  · split at h
    · injection h with h2; subst h2; rfl
    · split at h
      · injection h with h2; subst h2; rfl
      · exact Option.noConfusion h

/-- A part yielding no delta is not an emitted thought part. -/
theorem partRawDelta_none_thought {p : Part} (h : partRawDelta p = none) :
    (p.thought && optStrTruthy p.text) = false := by
  cases hp : p.thought
  · simp
  · cases ht : optStrTruthy p.text
    · simp [ht]
    · unfold partRawDelta at h
      simp [hp, ht] at h

/-- A part yielding a delta is an emitted thought part exactly when it is a
thought part. -/
theorem partRawDelta_some_thought {p : Part} {d : Delta} (h : partRawDelta p = some d) :
    (p.thought && optStrTruthy p.text) = p.thought := by
  cases hp : p.thought
  · simp
  · cases ht : optStrTruthy p.text
    · unfold partRawDelta at h
      simp [hp, ht] at h
    · simp [ht]

/-- Closed form of the part-emission loop: the chunks are the content-bearing
deltas, with the role attached to the first one when it has not been sent
yet, and the state records whether a role or a thought was emitted. -/
theorem emitParts_spec (streamId : String) (created : Nat) (modelName : String)
    (parts : List Part) : ∀ st : StreamState,
    emitParts streamId created modelName st parts =
      ({ st with
         roleSent := st.roleSent || !(parts.filterMap partRawDelta).isEmpty
         inThought := st.inThought || parts.any (fun p => p.thought && optStrTruthy p.text) },
       (addRoleIf (!st.roleSent) (parts.filterMap partRawDelta)).map
         (mkContentChunk streamId created modelName)) := by
  induction parts with
  | nil => intro st; simp [emitParts, addRoleIf, addRoleFirst]
  | cons p ps ih =>
    intro st
    cases hd : partRawDelta p with
    | none =>
      have hth := partRawDelta_none_thought hd
      simp [emitParts, hd, ih, List.filterMap_cons, hth]
    | some d =>
      have hth := partRawDelta_some_thought hd
      cases hp : p.thought
      · cases hrs : st.roleSent <;>
          simp [emitParts, hd, List.filterMap_cons, hth, hp, hrs, ih, addRoleIf, addRoleFirst]
      · have ht : optStrTruthy p.text = true := by
          rw [hp] at hth
          simpa using hth
        cases hrs : st.roleSent <;>
          simp [emitParts, hd, List.filterMap_cons, hp, ht, hrs, ih, addRoleIf, addRoleFirst]

/-- Role marking preserves emptiness. -/
theorem addRoleIf_isEmpty (b : Bool) (ds : List Delta) :
    (addRoleIf b ds).isEmpty = ds.isEmpty := by
  cases b <;> cases ds <;> simp [addRoleIf, addRoleFirst]

/-- Role marking preserves length. -/
theorem addRoleIf_length (b : Bool) (ds : List Delta) :
    (addRoleIf b ds).length = ds.length := by
  cases b <;> cases ds <;> simp [addRoleIf, addRoleFirst]

/-- Role marking over an append: the tail is marked only when the flag is
set and the head contributes nothing. -/
theorem addRoleIf_append (b : Bool) (xs ys : List Delta) :
    addRoleIf b (xs ++ ys) = addRoleIf b xs ++ addRoleIf (b && xs.isEmpty) ys := by
  cases b <;> cases xs <;> simp [addRoleIf, addRoleFirst]

/-- Role marking yields the empty list only on the empty list. -/
theorem addRoleIf_eq_nil (b : Bool) (ds : List Delta) :
    (addRoleIf b ds = []) ↔ (ds = []) := by
  cases b <;> cases ds <;> simp [addRoleIf, addRoleFirst]

/-- Emptiness of an append. -/
theorem listIsEmpty_append {α : Type} (l1 l2 : List α) :
    (l1 ++ l2).isEmpty = (l1.isEmpty && l2.isEmpty) := by
  cases l1 <;> simp

/-- The deltas of a fragment are the content-bearing deltas of its parts. -/
theorem fragDeltas_eq (g : GoogleResponse) :
    fragDeltas g = (fragParts g).filterMap partRawDelta := by
  unfold fragDeltas fragParts
  cases g.candidates.head? <;> simp

/-- Assigning the stream identity is idempotent. -/
theorem assignStreamIdentity_idem (st : StreamState) (freshId : String) (now : Nat) :
    assignStreamIdentity (assignStreamIdentity st freshId now) freshId now
      = assignStreamIdentity st freshId now := by
  cases h : st.id <;> simp [assignStreamIdentity, h]

/-- The streaming translator only consults its Translation State through the
identity assignment, so pre-assigning the identity does not change the
result. -/
theorem translateStream_assign (conv : ConverterState) (g : GoogleResponse)
    (modelName : String) (st : StreamState) (freshId : String) (now : Nat) :
    translateGoogleToOpenAIStream conv g modelName st freshId now =
      translateGoogleToOpenAIStream conv g modelName
        (assignStreamIdentity st freshId now) freshId now := by
  unfold translateGoogleToOpenAIStream
  rw [assignStreamIdentity_idem]

/-- Over a non-empty fragment list, pre-assigning the identity does not
change the run. -/
theorem runStream_assign (modelName freshId : String) (now : Nat) (conv : ConverterState)
    (st : StreamState) (g : GoogleResponse) (gs : List GoogleResponse) :
    runStream modelName freshId now conv st (g :: gs) =
      runStream modelName freshId now conv (assignStreamIdentity st freshId now) (g :: gs) := by
  simp only [runStream]
  rw [← translateStream_assign]

/-- A non-final fragment consults the candidate branch of midFragment. -/
theorem midFragment_some {g : GoogleResponse} {c : Candidate}
    (hc : g.candidates.head? = some c) (h : midFragment g) :
    optStrTruthy c.finishReason = false := by
  unfold midFragment at h
  rw [hc] at h
  exact h

/-- A candidate-less non-final fragment carries no promptFeedback. -/
theorem midFragment_none {g : GoogleResponse} (hc : g.candidates.head? = none)
    (h : midFragment g) : g.promptFeedback = none := by
  unfold midFragment at h
  rw [hc] at h
  exact h

/-- A final fragment carries a candidate with a truthy finishReason. -/
theorem finalFragment_cases {g : GoogleResponse} (h : finalFragment g) :
    ∃ c, g.candidates.head? = some c ∧ optStrTruthy c.finishReason = true := by
  unfold finalFragment at h
  cases hc : g.candidates.head? with
  | none => rw [hc] at h; exact h.elim
  | some c => rw [hc] at h; exact ⟨c, rfl, h⟩

/-- Closed form of one non-final streaming translation step on a state whose
identity is assigned. -/
theorem translateStream_mid (conv : ConverterState) (g : GoogleResponse)
    (modelName freshId : String) (now : Nat) (st : StreamState) (sid : String) (cr : Nat)
    (hid : st.id = some sid) (hcr : st.created = some cr) (hmid : midFragment g) :
    translateGoogleToOpenAIStream conv g modelName st freshId now =
      { conv := if g.usageMetadata.isSome then { streamUsage := some (parseUsage g) } else conv
        state := { st with
          roleSent := st.roleSent || !(fragDeltas g).isEmpty
          inThought := st.inThought
            || (fragParts g).any (fun p => p.thought && optStrTruthy p.text) }
        output := if (fragDeltas g).isEmpty then none
          else some ((addRoleIf (!st.roleSent) (fragDeltas g)).map
            (mkContentChunk sid cr modelName)) } := by
  obtain ⟨stid, stcr, str, stt⟩ := st
  obtain rfl : stid = some sid := hid
  obtain rfl : stcr = some cr := hcr
  have hassign : assignStreamIdentity ⟨some sid, some cr, str, stt⟩ freshId now
      = ⟨some sid, some cr, str, stt⟩ := by
    simp [assignStreamIdentity]
  cases hc : g.candidates.head? with
  | none =>
    have hpf := midFragment_none hc hmid
    have hfd : fragDeltas g = [] := by unfold fragDeltas; rw [hc]
    have hfp : fragParts g = [] := by unfold fragParts; rw [hc]
    simp [translateGoogleToOpenAIStream, hassign, hc, hpf, hfd, hfp]
  | some c =>
    have hfr := midFragment_some hc hmid
    have hfd : fragDeltas g = c.partsList.filterMap partRawDelta := by
      unfold fragDeltas; rw [hc]
    have hfp : fragParts g = c.partsList := by unfold fragParts; rw [hc]
    simp [translateGoogleToOpenAIStream, hassign, hc, hfr, hfd, hfp,
      emitParts_spec, addRoleIf_eq_nil]

/-- Closed form of the final streaming translation step on a state whose
identity is assigned. -/
theorem translateStream_final (conv : ConverterState) (g : GoogleResponse)
    (modelName freshId : String) (now : Nat) (st : StreamState) (sid : String) (cr : Nat)
    (hid : st.id = some sid) (hcr : st.created = some cr) (hfin : finalFragment g) :
    translateGoogleToOpenAIStream conv g modelName st freshId now =
      { conv := { streamUsage := none }
        state := { st with
          roleSent := st.roleSent || !(fragDeltas g).isEmpty
          inThought := st.inThought
            || (fragParts g).any (fun p => p.thought && optStrTruthy p.text) }
        output := some ((addRoleIf (!st.roleSent) (fragDeltas g)).map
            (mkContentChunk sid cr modelName)
          ++ [{ choices := [{ delta := {}, finish_reason := fragFinishReason g, index := 0 }]
                created := cr
                id := sid
                model := modelName
                object := "chat.completion.chunk"
                usage := some (if g.usageMetadata.isSome then some (parseUsage g)
                  else conv.streamUsage) }]) } := by
  obtain ⟨stid, stcr, str, stt⟩ := st
  obtain rfl : stid = some sid := hid
  obtain rfl : stcr = some cr := hcr
  have hassign : assignStreamIdentity ⟨some sid, some cr, str, stt⟩ freshId now
      = ⟨some sid, some cr, str, stt⟩ := by
    simp [assignStreamIdentity]
  obtain ⟨c, hc, hfr⟩ := finalFragment_cases hfin
  have hfd : fragDeltas g = c.partsList.filterMap partRawDelta := by
    unfold fragDeltas; rw [hc]
  have hfp : fragParts g = c.partsList := by unfold fragParts; rw [hc]
  have hff : fragFinishReason g = c.finishReason := by unfold fragFinishReason; rw [hc]
  obtain ⟨cu⟩ := conv
  cases hu : g.usageMetadata <;> cases hcu : cu <;>
    simp [translateGoogleToOpenAIStream, hassign, hc, hfr, hfd, hfp, hff, hu, hcu,
      emitParts_spec, listIsEmpty_append]

/-- Closed form of a full streaming run: non-final fragments followed by one
final fragment, on a state with assigned identity, produce the content
chunks in order (role marked once at the start when not yet sent) followed
by the single terminal chunk carrying the most recently cached usage, and
leave the usage cache empty. -/
theorem runStream_midfinal (modelName freshId : String) (now : Nat) (sid : String) (cr : Nat)
    (last : GoogleResponse) (hfin : finalFragment last) (fs : List GoogleResponse) :
    ∀ (conv : ConverterState) (st : StreamState),
    st.id = some sid → st.created = some cr → (∀ g ∈ fs, midFragment g) →
    runStream modelName freshId now conv st (fs ++ [last]) =
      ({ streamUsage := none },
       { st with
         roleSent := st.roleSent || !(streamDeltas (fs ++ [last])).isEmpty
         inThought := st.inThought || streamThought (fs ++ [last]) },
       (addRoleIf (!st.roleSent) (streamDeltas (fs ++ [last]))).map
         (mkContentChunk sid cr modelName)
       ++ [{ choices := [{ delta := {}, finish_reason := fragFinishReason last, index := 0 }]
             created := cr
             id := sid
             model := modelName
             object := "chat.completion.chunk"
             usage := some (lastCachedUsage conv.streamUsage (fs ++ [last])) }]) := by
  induction fs with
  | nil =>
    intro conv st hid hcr _
    obtain ⟨stid, stcr, str, stt⟩ := st
    obtain rfl : stid = some sid := hid
    obtain rfl : stcr = some cr := hcr
    rw [List.nil_append]
    simp only [runStream]
    rw [translateStream_final conv last modelName freshId now _ sid cr rfl rfl hfin]
    simp [runStream, streamDeltas, streamThought, lastCachedUsage]
  | cons g fs ih =>
    intro conv st hid hcr hmid
    obtain ⟨stid, stcr, str, stt⟩ := st
    obtain rfl : stid = some sid := hid
    obtain rfl : stcr = some cr := hcr
    rw [List.cons_append]
    simp only [runStream]
    rw [translateStream_mid conv g modelName freshId now _ sid cr rfl rfl
      (hmid g (List.mem_cons_self g fs))]
    simp only []
    rw [ih _ _ rfl rfl (fun g2 hg2 => hmid g2 (List.mem_cons_of_mem g hg2))]
    simp [streamDeltas, streamThought, lastCachedUsage, addRoleIf_append,
      listIsEmpty_append, Bool.not_and, Bool.not_or, Bool.or_assoc, apply_ite,
      addRoleIf_isEmpty]
    cases hfd : fragDeltas g with
    | nil => simp [hfd, addRoleIf, addRoleFirst]
    | cons d ds => simp [hfd]

/-- Marking the first role preserves length. -/
theorem addRoleFirst_length (ds : List Delta) : (addRoleFirst ds).length = ds.length := by
  cases ds <;> simp [addRoleFirst]

/-- The content-bearing deltas of a fragment sequence never carry a role of
their own. -/
theorem streamDeltas_role_none (gs : List GoogleResponse) :
    ∀ d ∈ streamDeltas gs, d.role = none := by
  induction gs with
  | nil => simp [streamDeltas]
  | cons g gs ih =>
    intro d hd
    rw [streamDeltas] at hd
    rcases List.mem_append.mp hd with h1 | h2
    · rw [fragDeltas_eq] at h1
      obtain ⟨p, _, hp⟩ := List.mem_filterMap.mp h1
      exact partRawDelta_role_none hp
    · exact ih d h2

/-- C2 counterexample: when no usage metadata ever arrived, the terminal
chunk still carries a usage field — holding the JSON value null — rather
than omitting the field as the claim states. -/
theorem c2_counterexample :
    (runStream "m" "r" 0 { streamUsage := none } {} [finishOnlyFragment]).2.2.map
        (fun c => c.usage) = [some none] ∧
    (runStream "m" "r" 0 { streamUsage := none } {} [finishOnlyFragment]).2.2.map
        (fun c => c.usage) ≠ [none] := by
  exact ⟨rfl, by decide⟩

/-- C2 (amended): a run over non-final fragments followed by one fragment
with a finish reason emits exactly the content-bearing deltas as chunks, in
order, with the assistant role attached only to the first of them, followed
by exactly one terminal chunk with empty delta, the finish reason, and a
usage field holding the most recently cached usage record (null when usage
metadata never arrived); afterwards the usage cache is cleared. -/
theorem c2_stream_shape (modelName freshId : String) (now : Nat)
    (fs : List GoogleResponse) (last : GoogleResponse)
    (hmid : ∀ g ∈ fs, midFragment g) (hfin : finalFragment last) :
    (runStream modelName freshId now { streamUsage := none } {} (fs ++ [last])).2.2 =
      (addRoleFirst (streamDeltas (fs ++ [last]))).map
        (mkContentChunk ("chatcmpl-" ++ freshId) now modelName)
      ++ [{ choices := [{ delta := {}, finish_reason := fragFinishReason last, index := 0 }]
            created := now
            id := "chatcmpl-" ++ freshId
            model := modelName
            object := "chat.completion.chunk"
            usage := some (lastCachedUsage none (fs ++ [last])) }] ∧
    (runStream modelName freshId now { streamUsage := none } {} (fs ++ [last])).1
      = { streamUsage := none } ∧
    (runStream modelName freshId now { streamUsage := none } {} (fs ++ [last])).2.2.length
      = (streamDeltas (fs ++ [last])).length + 1 ∧
    ∀ d ∈ streamDeltas (fs ++ [last]), d.role = none := by
  have hrun : runStream modelName freshId now { streamUsage := none } {} (fs ++ [last]) =
      runStream modelName freshId now { streamUsage := none }
        { id := some ("chatcmpl-" ++ freshId), created := some now } (fs ++ [last]) := by
    cases fs with
    | nil =>
      simpa [assignStreamIdentity] using
        runStream_assign modelName freshId now { streamUsage := none } {} last []
    | cons g fs2 =>
      simpa [assignStreamIdentity] using
        runStream_assign modelName freshId now { streamUsage := none } {} g (fs2 ++ [last])
  rw [hrun, runStream_midfinal modelName freshId now ("chatcmpl-" ++ freshId) now last hfin fs
    { streamUsage := none } { id := some ("chatcmpl-" ++ freshId), created := some now }
    rfl rfl hmid]
  refine ⟨?_, rfl, ?_, streamDeltas_role_none _⟩
  · simp [addRoleIf]
  · simp [addRoleIf, addRoleFirst_length]

/-- C2 witness: one content fragment carrying usage metadata followed by one
finish fragment. -/
theorem c2_stream_shape_witness :
    (∀ g ∈ [sampleMidFragment], midFragment g) ∧ finalFragment finishOnlyFragment ∧
    ((runStream "m" "r" 7 { streamUsage := none } {}
        ([sampleMidFragment] ++ [finishOnlyFragment])).2.2 =
      (addRoleFirst (streamDeltas ([sampleMidFragment] ++ [finishOnlyFragment]))).map
        (mkContentChunk ("chatcmpl-" ++ "r") 7 "m")
      ++ [{ choices := [{ delta := {}, finish_reason := fragFinishReason finishOnlyFragment,
                          index := 0 }]
            created := 7
            id := "chatcmpl-" ++ "r"
            model := "m"
            object := "chat.completion.chunk"
            usage := some (lastCachedUsage none ([sampleMidFragment] ++ [finishOnlyFragment])) }] ∧
    (runStream "m" "r" 7 { streamUsage := none } {}
        ([sampleMidFragment] ++ [finishOnlyFragment])).1 = { streamUsage := none } ∧
    (runStream "m" "r" 7 { streamUsage := none } {}
        ([sampleMidFragment] ++ [finishOnlyFragment])).2.2.length
      = (streamDeltas ([sampleMidFragment] ++ [finishOnlyFragment])).length + 1 ∧
    ∀ d ∈ streamDeltas ([sampleMidFragment] ++ [finishOnlyFragment]), d.role = none) := by
  have hfin : finalFragment finishOnlyFragment := by
    show optStrTruthy (some "STOP") = true
    decide
  have hmid : ∀ g ∈ [sampleMidFragment], midFragment g := by
    intro g hg
    rw [List.mem_singleton] at hg
    subst hg
    rfl
  exact ⟨hmid, hfin, c2_stream_shape "m" "r" 7 [sampleMidFragment] finishOnlyFragment hmid hfin⟩

/-- The generation bookkeeping invariant is preserved by every step of the
registry transition system. -/
theorem genInv_step (s : RegSim) (a : RegAction) (h : GenInv s) :
    GenInv ((regStep s a).getD s) := by
  obtain ⟨⟨conns, qs, timer⟩, pend, ng, canc, fir, clog, notif⟩ := s
  obtain ⟨h1, h2, h3⟩ := h
  cases a with
  | addConn p =>
    cases timer with
    | none => exact ⟨h1, h2, h3⟩
    | some g =>
      simp only [regStep, Option.getD_some, addConnection]
      cases hg : pend.contains g with
      | true =>
        refine ⟨?_, ?_, ?_⟩
        · intro x hx
          simp only [List.mem_filter, bne_iff_ne, ne_eq] at hx
          obtain ⟨hxm, hxg⟩ := hx
          obtain ⟨ha, hb, hc⟩ := h1 x hxm
          simp only [List.mem_cons]
          exact ⟨ha, fun hor => hor.elim hxg hb, hc⟩
        · intro x hx
          simp only [List.mem_cons] at hx
          rcases hx with rfl | hx
          · have hgm : x ∈ pend := by simpa using hg
            exact ⟨(h1 x hgm).1, (h1 x hgm).2.2⟩
          · exact h2 x hx
        · exact h3
      | false =>
        refine ⟨?_, ?_, ?_⟩
        · intro x hx
          simp only [List.mem_filter, bne_iff_ne, ne_eq] at hx
          obtain ⟨hxm, _⟩ := hx
          exact h1 x hxm
        · intro x hx
          exact h2 x hx
        · exact h3
  | removeConn p =>
    simp only [regStep, Option.getD_some, removeConnection]
    refine ⟨?_, ?_, ?_⟩
    · intro x hx
      rcases List.mem_append.mp hx with hxm | hxe
      · obtain ⟨ha, hb, hc⟩ := h1 x hxm
        exact ⟨Nat.lt_succ_of_lt ha, hb, hc⟩
      · have hxg : x = ng := by simpa using hxe
        refine ⟨?_, fun hc => ?_, fun hf => ?_⟩
        · show x < ng + 1
          omega
        · have h5 : x < ng := (h2 x hc).1
          omega
        · have h5 : x < ng := h3 x hf
          omega
    · intro x hx
      obtain ⟨ha, hb⟩ := h2 x hx
      exact ⟨Nat.lt_succ_of_lt ha, hb⟩
    · intro x hx
      exact Nat.lt_succ_of_lt (h3 x hx)
  | graceTimerFire g =>
    simp only [regStep]
    cases hg : pend.contains g with
    | false => exact ⟨h1, h2, h3⟩
    | true =>
      simp only [Option.getD_some, fireGraceTimer]
      have hgm : g ∈ pend := by simpa using hg
      refine ⟨?_, ?_, ?_⟩
      · intro x hx
        simp only [List.mem_filter, bne_iff_ne, ne_eq] at hx
        obtain ⟨hxm, hxg⟩ := hx
        obtain ⟨ha, hb, hc⟩ := h1 x hxm
        simp only [List.mem_cons]
        exact ⟨ha, hb, fun hor => hor.elim hxg hc⟩
      · intro x hx
        obtain ⟨ha, hb⟩ := h2 x hx
        simp only [List.mem_cons]
        refine ⟨ha, fun hor => ?_⟩
        rcases hor with rfl | hf
        · exact (h1 x hgm).2.1 hx
        · exact hb hf
      · intro x hx
        simp only [List.mem_cons] at hx
        rcases hx with rfl | hf
        · exact (h1 x hgm).1
        · exact h3 x hf
  | createQueue rid => exact ⟨h1, h2, h3⟩
  | removeQueue rid =>
    simp only [regStep, Option.getD_some, removeQueueSim]
    cases qLookup qs rid with
    | none => exact ⟨h1, h2, h3⟩
    | some q => exact ⟨h1, h2, h3⟩

/-- The initial simulation state satisfies the generation invariant. -/
theorem genInv_init : GenInv initRegSim :=
  ⟨fun g hg => absurd hg (List.not_mem_nil g),
   fun g hg => absurd hg (List.not_mem_nil g),
   fun g hg => absurd hg (List.not_mem_nil g)⟩

/-- The generation invariant holds along every run. -/
theorem genInv_regRun (acts : List RegAction) :
    ∀ s : RegSim, GenInv s → GenInv (regRun s acts) := by
  induction acts with
  | nil => intro s h; exact h
  | cons a as ih => intro s h; exact ih _ (genInv_step s a h)

/-- C9: after a peer disconnect a grace timer is pending; a new peer
registered while it is pending cancels it without closing or removing any
Message Queue; a pending timer may fire, closing every outstanding queue,
emptying the queue map and emitting connectionLost; and along every run from
the initial state no generation is both cancelled and fired. -/
theorem c9_grace_timer_lifecycle :
    (∀ (s : RegSim) (p : Nat),
      (removeConnection s p).reg.reconnectGraceTimer = some s.nextGen ∧
      s.nextGen ∈ (removeConnection s p).pending) ∧
    (∀ (s : RegSim) (p g : Nat), s.reg.reconnectGraceTimer = some g → g ∈ s.pending →
      (addConnection s p).reg.reconnectGraceTimer = none ∧
      g ∈ (addConnection s p).cancelled ∧
      g ∉ (addConnection s p).pending ∧
      (addConnection s p).reg.messageQueues = s.reg.messageQueues ∧
      (addConnection s p).closedLog = s.closedLog) ∧
    (∀ (s : RegSim) (g : Nat), g ∈ s.pending →
      regStep s (.graceTimerFire g) = some (fireGraceTimer s g) ∧
      (fireGraceTimer s g).reg.messageQueues = [] ∧
      (fireGraceTimer s g).closedLog = s.closedLog ++ s.reg.messageQueues.map Prod.fst ∧
      "connectionLost" ∈ (fireGraceTimer s g).notifications ∧
      g ∈ (fireGraceTimer s g).fired) ∧
    (∀ (acts : List RegAction) (g : Nat),
      g ∈ (regRun initRegSim acts).cancelled → g ∉ (regRun initRegSim acts).fired) := by
  refine ⟨?_, ?_, ?_, ?_⟩
  · intro s p
    obtain ⟨⟨conns, qs, timer⟩, pend, ng, canc, fir, clog, notif⟩ := s
    simp [removeConnection]
  · intro s p g ht hp
    obtain ⟨⟨conns, qs, timer⟩, pend, ng, canc, fir, clog, notif⟩ := s
    obtain rfl : timer = some g := ht
    have hc : pend.contains g = true := by simpa using hp
    simp only [addConnection]
    rw [hc]
    simp [peerAdd]
  · intro s g hp
    obtain ⟨⟨conns, qs, timer⟩, pend, ng, canc, fir, clog, notif⟩ := s
    have hc : pend.contains g = true := by simpa using hp
    refine ⟨?_, rfl, rfl, ?_, ?_⟩
    · simp only [regStep]
      rw [hc]
    · simp [fireGraceTimer]
    · simp [fireGraceTimer]
  · intro acts g hcanc hfir
    have hinv := genInv_regRun acts initRegSim genInv_init
    exact (hinv.2.1 g hcanc).2 hfir

/-- C9 witness: a disconnect followed by a reconnect within the grace
window, and a disconnect whose timer fires. -/
theorem c9_grace_timer_lifecycle_witness :
    ((removeConnection initRegSim 0).reg.reconnectGraceTimer = some initRegSim.nextGen ∧
      initRegSim.nextGen ∈ (removeConnection initRegSim 0).pending) ∧
    ((removeConnection initRegSim 0).reg.reconnectGraceTimer = some 0 ∧
      (0 : Nat) ∈ (removeConnection initRegSim 0).pending) ∧
    ((addConnection (removeConnection initRegSim 0) 1).reg.reconnectGraceTimer = none ∧
      (0 : Nat) ∈ (addConnection (removeConnection initRegSim 0) 1).cancelled ∧
      (0 : Nat) ∉ (addConnection (removeConnection initRegSim 0) 1).pending ∧
      (addConnection (removeConnection initRegSim 0) 1).reg.messageQueues
        = (removeConnection initRegSim 0).reg.messageQueues ∧
      (addConnection (removeConnection initRegSim 0) 1).closedLog
        = (removeConnection initRegSim 0).closedLog) ∧
    (regStep (removeConnection initRegSim 0) (.graceTimerFire 0)
        = some (fireGraceTimer (removeConnection initRegSim 0) 0) ∧
      (fireGraceTimer (removeConnection initRegSim 0) 0).reg.messageQueues = [] ∧
      (fireGraceTimer (removeConnection initRegSim 0) 0).closedLog
        = (removeConnection initRegSim 0).closedLog
          ++ (removeConnection initRegSim 0).reg.messageQueues.map Prod.fst ∧
      "connectionLost" ∈ (fireGraceTimer (removeConnection initRegSim 0) 0).notifications ∧
      (0 : Nat) ∈ (fireGraceTimer (removeConnection initRegSim 0) 0).fired) ∧
    ((0 : Nat) ∈ (regRun initRegSim [.removeConn 0, .addConn 1]).cancelled ∧
      (0 : Nat) ∉ (regRun initRegSim [.removeConn 0, .addConn 1]).fired) :=
  ⟨c9_grace_timer_lifecycle.1 initRegSim 0,
   ⟨by decide, by decide⟩,
   c9_grace_timer_lifecycle.2.1 (removeConnection initRegSim 0) 1 0 (by decide) (by decide),
   c9_grace_timer_lifecycle.2.2.1 (removeConnection initRegSim 0) 0 (by decide),
   ⟨by decide,
    c9_grace_timer_lifecycle.2.2.2 [.removeConn 0, .addConn 1] 0 (by decide)⟩⟩

end AIStudioToAPI
